import Mathlib

/-
Verification of the mcp-dashboard process-supervision subsystem.

Shallow embedding of the Python sources:
  server/database.py        (SyncDB: tasks, activity log, questions, artifacts)
  server/queue_manager.py   (QueueManager: spawn / cancel / recover_orphans /
                             exit handling of _stream_and_monitor)
  server/mcp_tools.py       (dashboard_ask_question)
  server/service_manager.py (ServiceManager: start / stop / _serialize)
  server/main.py            (_ws_poll_loop tick)

Conventions of the embedding:
  * SQLite tables are lists of records in insertion order; the primary-key
    lookup `SELECT ... WHERE id = ?` is `List.find?`.
  * `ORDER BY` clauses are modelled with `List.insertionSort`.
  * Timestamps are naturals (the tick model uses milliseconds).
  * OS effects (process launch, signal delivery, pid liveness probes) are
    parameters of the operations that perform them, so that each code path
    of the Python `try/except` blocks is a value of the parameter.
-/

namespace Dashboard

/-- A row of the `tasks` table (database.py SCHEMA). -/
structure Task where
  id : String
  parent_id : Option String := none
  title : String := ""
  description : String := ""
  status : String := "pending"
  assigned_agent : Option String := none
  phase : Option String := none
  result : Option String := none
  pid : Option Int := none
  auto_accept : Bool := false
  source : String := "cli"
  created_at : Nat := 0
  updated_at : Nat := 0
deriving DecidableEq, Repr

/-- A row of the append-only `activity_log` table (AUTOINCREMENT id). -/
structure ActivityEntry where
  id : Nat
  task_id : String
  event_type : String
  agent : Option String := none
  message : String := ""
  metadata : String := "{}"
  created_at : Nat := 0
deriving DecidableEq, Repr

/-- A row of the `questions` table. `answer = none` means pending. -/
structure Question where
  id : String
  task_id : String
  agent : Option String := none
  question : String := ""
  question_type : String := "text"
  options : Option (List String) := none
  context : Option String := none
  answer : Option String := none
  answered_at : Option Nat := none
  auto_accepted : Bool := false
  created_at : Nat := 0
deriving DecidableEq, Repr

/-- A row of the `artifacts` table; of its JSON `metadata` only the two
fields consumed by `_attach_eval_score` are modelled. -/
structure Artifact where
  id : String
  task_id : String
  artifact_type : String := "file"
  label : String := ""
  file_path : String := ""
  final_score : Option Int := none
  grade : Option String := none
  created_at : Nat := 0
deriving DecidableEq, Repr

/-- The shared SQLite store (the slice used by the supervision subsystem). -/
structure DB where
  tasks : List Task := []
  activity : List ActivityEntry := []
  nextActivityId : Nat := 1
  questions : List Question := []
  artifacts : List Artifact := []
deriving DecidableEq, Repr

/-- Result of `SyncDB.get_stats`. -/
structure Stats where
  pending : Nat
  in_progress : Nat
  completed : Nat
  failed : Nat
  blocked : Nat
  total : Nat
  pending_questions : Nat
deriving DecidableEq, Repr

/-- Python truthiness of an optional string (`if status:`). -/
def optStrTruthy (o : Option String) : Bool :=
  o.getD "" ≠ ""

/-- Python truthiness of an optional int (`if pid:`). -/
def optIntTruthy (o : Option Int) : Bool :=
  o.getD 0 ≠ 0

/-- Ordering used for `ORDER BY created_at ASC` on questions. -/
def questionCreatedLe (a b : Question) : Prop := a.created_at ≤ b.created_at

instance : DecidableRel questionCreatedLe := fun a b => Nat.decLe _ _

/-- Ordering used for `ORDER BY created_at ASC` on child tasks. -/
def taskCreatedLe (a b : Task) : Prop := a.created_at ≤ b.created_at

instance : DecidableRel taskCreatedLe := fun a b => Nat.decLe _ _

/-- Ordering used for `ORDER BY created_at DESC` on root tasks. -/
def taskCreatedGe (a b : Task) : Prop := b.created_at ≤ a.created_at

instance : DecidableRel taskCreatedGe := fun a b => Nat.decLe _ _

/-- Ordering used for `ORDER BY created_at DESC` on artifacts. -/
def artifactCreatedGe (a b : Artifact) : Prop := b.created_at ≤ a.created_at

instance : DecidableRel artifactCreatedGe := fun a b => Nat.decLe _ _

/-- Ordering used for `ORDER BY id ASC` on activity entries. -/
def activityIdLe (a b : ActivityEntry) : Prop := a.id ≤ b.id

instance : DecidableRel activityIdLe := fun a b => Nat.decLe _ _

instance : IsTotal ActivityEntry activityIdLe := ⟨fun a b => Nat.le_total a.id b.id⟩

instance : IsTrans ActivityEntry activityIdLe := ⟨fun _ _ _ => Nat.le_trans⟩

namespace SyncDB

/-- Embeds `SELECT * FROM tasks WHERE id = ?` (the bare row, before the children /
question-count enrichment of `get_task`). -/
def getTaskRow (db : DB) (task_id : String) : Option Task :=
  db.tasks.find? (fun t => t.id == task_id)

/-- Model of `SyncDB._log_activity` / `log_activity`: append one activity row, whose id
is the next AUTOINCREMENT value. -/
def log_activity (db : DB) (task_id event_type : String) (agent : Option String)
    (message : String) (now : Nat) : DB :=
  { db with
    activity := db.activity ++
      [{ id := db.nextActivityId, task_id := task_id, event_type := event_type,
         agent := agent, message := message, created_at := now }],
    nextActivityId := db.nextActivityId + 1 }

/-- Embeds `SELECT * FROM tasks WHERE parent_id = ? ORDER BY created_at` (the
children query of `get_task` / `get_root_tasks`). -/
def getChildren (db : DB) (task_id : String) : List Task :=
  List.insertionSort taskCreatedLe
    (db.tasks.filter (fun c => c.parent_id == some task_id))

/-- Model of `_attach_eval_score`: newest `eval_report` artifact on the task or a
direct child, yielding `(final_score, grade)`. -/
def attachEvalScore (db : DB) (t : Task) (children : List Task) :
    Option Int × Option String :=
  let child_ids := t.id :: children.map (fun c => c.id)
  let reports := db.artifacts.filter
    (fun a => child_ids.contains a.task_id && a.artifact_type == "eval_report")
  match List.insertionSort artifactCreatedGe reports with
  | r :: _ => (r.final_score, r.grade)
  | [] => (none, none)

end SyncDB

/-- The enriched task dict returned by `SyncDB.get_task` / `get_root_tasks`:
row plus children, pending-question count and eval fields. -/
structure TaskView where
  task : Task
  children : List Task
  pending_questions : Nat
  eval_score : Option Int
  eval_grade : Option String
deriving DecidableEq, Repr

namespace SyncDB

/-- Enrich one row the way `get_task` / `get_root_tasks` do. -/
def taskView (db : DB) (t : Task) : TaskView :=
  let children := getChildren db t.id
  let ev := attachEvalScore db t children
  { task := t
    children := children
    pending_questions :=
      db.questions.countP (fun q => q.task_id == t.id && q.answer.isNone)
    eval_score := ev.1
    eval_grade := ev.2 }

/-- Model of `SyncDB.get_task`. -/
def get_task (db : DB) (task_id : String) : Option TaskView :=
  (getTaskRow db task_id).map (taskView db)

/-- Model of `SyncDB.get_root_tasks`: roots newest-first, each enriched. -/
def get_root_tasks (db : DB) : List TaskView :=
  (List.insertionSort taskCreatedGe
      (db.tasks.filter (fun t => t.parent_id.isNone))).map (taskView db)

/-- The field patch one `UPDATE tasks SET ...` of `update_task` applies to
the addressed row (outer `none` on `pid` is the `_UNSET` sentinel). -/
def patchTask (status phase result assigned_agent : Option String)
    (pid : Option (Option Int)) (now : Nat) (t : Task) : Task :=
  { t with
    status := status.getD t.status
    phase := match phase with | some p => some p | none => t.phase
    result := match result with | some r => some r | none => t.result
    assigned_agent :=
      match assigned_agent with | some a => some a | none => t.assigned_agent
    pid := pid.getD t.pid
    updated_at := now }

/-- Model of `SyncDB.update_task`: partial patch; with no supplied field it only
re-reads the task; status / phase changes are logged. -/
def update_task (db : DB) (task_id : String)
    (status phase result assigned_agent : Option String)
    (pid : Option (Option Int)) (now : Nat) : DB × Option TaskView :=
  if status.isNone && phase.isNone && result.isNone && assigned_agent.isNone
      && pid.isNone then
    (db, get_task db task_id)
  else
    let db1 : DB :=
      { db with
        tasks := db.tasks.map (fun t =>
          if t.id == task_id then
            patchTask status phase result assigned_agent pid now t
          else t) }
    let db2 :=
      if optStrTruthy status then
        log_activity db1 task_id "status_change" assigned_agent
          ("Status changed to " ++ status.getD "") now
      else db1
    let db3 :=
      if optStrTruthy phase then
        log_activity db2 task_id "phase_change" assigned_agent
          ("Phase changed to " ++ phase.getD "") now
      else db2
    (db3, get_task db3 task_id)

/-- Model of `SyncDB.get_orphaned_tasks`:
`SELECT * FROM tasks WHERE status = 'in_progress' AND pid IS NOT NULL`. -/
def get_orphaned_tasks (db : DB) : List Task :=
  db.tasks.filter (fun t => t.status == "in_progress" && t.pid.isSome)

/-- Model of `SyncDB.get_task_pid`. -/
def get_task_pid (db : DB) (task_id : String) : Option Int :=
  (getTaskRow db task_id).bind (fun t => t.pid)

/-- Model of `SyncDB.get_activity_since_id`:
`SELECT * FROM activity_log WHERE id > ? ORDER BY id ASC`. -/
def get_activity_since_id (db : DB) (since_id : Nat) : List ActivityEntry :=
  List.insertionSort activityIdLe
    (db.activity.filter (fun a => since_id < a.id))

/-- Options as persisted by `create_question`: the Python truthiness of
`options` stores NULL for `None` and for an empty list. -/
def storedOptions (options : Option (List String)) : Option (List String) :=
  match options with
  | some (o :: os) => some (o :: os)
  | _ => none

/-- Model of `SyncDB.create_question`: insert an unanswered question (an empty
options list is stored as NULL), then log it. -/
def create_question (db : DB) (question_id task_id : String)
    (question : String) (agent : Option String) (question_type : String)
    (options : Option (List String)) (context : Option String)
    (now : Nat) : DB :=
  let stored_options : Option (List String) := storedOptions options
  let q : Question :=
    { id := question_id, task_id := task_id, agent := agent,
      question := question, question_type := question_type,
      options := stored_options, context := context, created_at := now }
  log_activity { db with questions := db.questions ++ [q] }
    task_id "question" agent ("Question asked: " ++ question.take 100) now

/-- Model of `SyncDB.answer_question`: set answer / answered_at / auto_accepted on the
addressed question and log the answer against its task. -/
def answer_question (db : DB) (question_id answer : String)
    (auto_accepted : Bool) (now : Nat) : DB :=
  let db1 : DB :=
    { db with
      questions := db.questions.map (fun q =>
        if q.id == question_id then
          { q with answer := some answer, answered_at := some now,
                   auto_accepted := auto_accepted }
        else q) }
  match db1.questions.find? (fun q => q.id == question_id) with
  | some q =>
      log_activity db1 q.task_id "answer" none ("Answer: " ++ answer.take 100) now
  | none => db1

/-- Model of `SyncDB.get_question`. -/
def get_question (db : DB) (question_id : String) : Option Question :=
  db.questions.find? (fun q => q.id == question_id)

/-- Model of `SyncDB.get_questions` with `pending_only` (no children):
`SELECT * FROM questions WHERE task_id = ? [AND answer IS NULL] ORDER BY created_at`. -/
def get_questions (db : DB) (task_id : String) (pending_only : Bool) :
    List Question :=
  List.insertionSort questionCreatedLe
    (db.questions.filter (fun q =>
      q.task_id == task_id && (!pending_only || q.answer.isNone)))

/-- Model of `SyncDB.get_all_pending_questions`. -/
def get_all_pending_questions (db : DB) : List Question :=
  List.insertionSort questionCreatedLe
    (db.questions.filter (fun q => q.answer.isNone))

/-- Model of `SyncDB.get_stats`: per-status counts plus totals. -/
def get_stats (db : DB) : Stats :=
  { pending := db.tasks.countP (fun t => t.status == "pending")
    in_progress := db.tasks.countP (fun t => t.status == "in_progress")
    completed := db.tasks.countP (fun t => t.status == "completed")
    failed := db.tasks.countP (fun t => t.status == "failed")
    blocked := db.tasks.countP (fun t => t.status == "blocked")
    total := db.tasks.length
    pending_questions := db.questions.countP (fun q => q.answer.isNone) }

end SyncDB

/-! ### Basic lemmas about the store operations -/

/-- A `find?` lookup commutes with a `map` that does not change the tested predicate. -/
theorem find?_map_invariant {α : Type} (f : α → α) (p : α → Bool)
    (hp : ∀ a, p (f a) = p a) :
    ∀ l : List α, (l.map f).find? p = (l.find? p).map f := by
  intro l
  induction l with
  | nil => rfl
  | cons a l ih =>
    simp only [List.map_cons]
    cases hpa : p a with
    | true =>
      rw [List.find?_cons_of_pos _ (by rw [hp]; exact hpa),
        List.find?_cons_of_pos _ hpa]
      rfl
    | false =>
      rw [List.find?_cons_of_neg _ (by simp [hp, hpa]),
        List.find?_cons_of_neg _ (by simp [hpa]), ih]

theorem patchTask_id (status phase result assigned_agent : Option String)
    (pid : Option (Option Int)) (now : Nat) (t : Task) :
    (SyncDB.patchTask status phase result assigned_agent pid now t).id = t.id :=
  rfl

theorem getTaskRow_log_activity (db : DB) (task_id event_type : String)
    (agent : Option String) (message : String) (now : Nat) (x : String) :
    SyncDB.getTaskRow (SyncDB.log_activity db task_id event_type agent message now) x
      = SyncDB.getTaskRow db x :=
  rfl

theorem getTaskRow_tasks_map (db : DB) (f : Task → Task)
    (hf : ∀ t, (f t).id = t.id) (x : String) :
    SyncDB.getTaskRow { db with tasks := db.tasks.map f } x
      = (SyncDB.getTaskRow db x).map f :=
  find?_map_invariant f (fun t => t.id == x) (fun a => by simp [hf]) db.tasks

/-- Row read-back after a non-empty `update_task`. -/
theorem getTaskRow_update_task (db : DB) (task_id : String)
    (status phase result assigned_agent : Option String)
    (pid : Option (Option Int)) (now : Nat) (x : String)
    (h : (status.isNone && phase.isNone && result.isNone
        && assigned_agent.isNone && pid.isNone) = false) :
    SyncDB.getTaskRow
        (SyncDB.update_task db task_id status phase result assigned_agent pid now).1 x
      = (SyncDB.getTaskRow db x).map (fun t =>
          if t.id == task_id then
            SyncDB.patchTask status phase result assigned_agent pid now t
          else t) := by
  have hmap := getTaskRow_tasks_map db
    (fun t => if t.id == task_id then
      SyncDB.patchTask status phase result assigned_agent pid now t else t)
    (fun t => by by_cases ht : t.id == task_id <;> simp [ht, patchTask_id]) x
  have hlog : ∀ (d : DB) (et m : String) (b : Bool),
      SyncDB.getTaskRow
          (if b then SyncDB.log_activity d task_id et assigned_agent m now else d) x
        = SyncDB.getTaskRow d x := by
    intro d et m b
    cases b <;> rfl
  unfold SyncDB.update_task
  rw [if_neg (by simp [h])]
  dsimp only
  rw [hlog, hlog]
  exact hmap

/-- The no-field `update_task` call is the identity on the store and returns
the current task. -/
theorem update_task_noop (db : DB) (task_id : String) (now : Nat) :
    SyncDB.update_task db task_id none none none none none now
      = (db, SyncDB.get_task db task_id) :=
  rfl

/-- A row found by `getTaskRow db x` carries id `x`. -/
theorem getTaskRow_id {db : DB} {x : String} {t : Task}
    (h : SyncDB.getTaskRow db x = some t) : (t.id == x) = true := by
  unfold SyncDB.getTaskRow at h
  simpa using List.find?_some (p := fun (u : Task) => u.id == x) h

/-- C8: for every cursor value N and every state of the activity log,
`activity_since(N)` returns no entry with id ≤ N, returns every stored entry
with id > N, and is sorted in ascending id order. -/
theorem C8_activity_since_cursor (db : DB) (N : Nat) :
    (∀ e ∈ SyncDB.get_activity_since_id db N, N < e.id)
    ∧ (∀ e ∈ db.activity, N < e.id → e ∈ SyncDB.get_activity_since_id db N)
    ∧ List.Sorted activityIdLe (SyncDB.get_activity_since_id db N) := by
  refine ⟨?_, ?_, ?_⟩
  · intro e he
    rw [SyncDB.get_activity_since_id, List.mem_insertionSort] at he
    exact of_decide_eq_true (List.mem_filter.mp he).2
  · intro e he hgt
    rw [SyncDB.get_activity_since_id, List.mem_insertionSort]
    exact List.mem_filter.mpr ⟨he, decide_eq_true hgt⟩
  · exact List.sorted_insertionSort activityIdLe _

/-- Store used by the C8 witness: two activity entries with ids 1 and 5. -/
def dbC8 : DB :=
  { activity :=
      [{ id := 1, task_id := "t", event_type := "message" },
       { id := 5, task_id := "t", event_type := "message" }],
    nextActivityId := 6 }

theorem C8_activity_since_cursor_witness :
    ({ id := 5, task_id := "t", event_type := "message" } : ActivityEntry)
        ∈ SyncDB.get_activity_since_id dbC8 3
    ∧ ∀ e ∈ SyncDB.get_activity_since_id dbC8 3, 3 < e.id := by
  refine ⟨?_, (C8_activity_since_cursor dbC8 3).1⟩
  exact (C8_activity_since_cursor dbC8 3).2.1 _ (by decide) (by decide)

/-- C10: `update_task` is a partial patch: unsupplied fields among
status/phase/result/assigned_agent/pid keep their prior values, the other
columns are never changed, other rows are untouched, and a call supplying no
field at all leaves the store entirely unchanged (including `updated_at`)
and returns the current task. -/
theorem C10_update_task_partial_patch (db : DB) (task_id : String)
    (status phase result assigned_agent : Option String)
    (pid : Option (Option Int)) (now : Nat) (t : Task)
    (ht : SyncDB.getTaskRow db task_id = some t) :
    (∃ t', SyncDB.getTaskRow
        (SyncDB.update_task db task_id status phase result assigned_agent pid now).1
          task_id = some t'
      ∧ t'.id = t.id ∧ t'.parent_id = t.parent_id ∧ t'.title = t.title
      ∧ t'.description = t.description ∧ t'.auto_accept = t.auto_accept
      ∧ t'.source = t.source ∧ t'.created_at = t.created_at
      ∧ (status = none → t'.status = t.status)
      ∧ (phase = none → t'.phase = t.phase)
      ∧ (result = none → t'.result = t.result)
      ∧ (assigned_agent = none → t'.assigned_agent = t.assigned_agent)
      ∧ (pid = none → t'.pid = t.pid))
    ∧ (∀ x, x ≠ task_id →
        SyncDB.getTaskRow
          (SyncDB.update_task db task_id status phase result assigned_agent pid now).1 x
          = SyncDB.getTaskRow db x)
    ∧ SyncDB.update_task db task_id none none none none none now
        = (db, SyncDB.get_task db task_id) := by
  cases hb : (status.isNone && phase.isNone && result.isNone
      && assigned_agent.isNone && pid.isNone) with
  | true =>
    simp only [Bool.and_eq_true, Option.isNone_iff_eq_none] at hb
    obtain ⟨⟨⟨⟨h1, h2⟩, h3⟩, h4⟩, h5⟩ := hb
    subst h1; subst h2; subst h3; subst h4; subst h5
    refine ⟨⟨t, ?_, rfl, rfl, rfl, rfl, rfl, rfl, rfl,
      fun _ => rfl, fun _ => rfl, fun _ => rfl, fun _ => rfl, fun _ => rfl⟩,
      fun x _ => ?_, update_task_noop db task_id now⟩
    · rw [update_task_noop]
      exact ht
    · rw [update_task_noop]
  | false =>
    have htid : (t.id == task_id) = true := getTaskRow_id ht
    refine ⟨⟨SyncDB.patchTask status phase result assigned_agent pid now t,
      ?_, rfl, rfl, rfl, rfl, rfl, rfl, rfl, ?_, ?_, ?_, ?_, ?_⟩,
      fun x hx => ?_, update_task_noop db task_id now⟩
    · rw [getTaskRow_update_task db task_id status phase result assigned_agent
        pid now task_id hb, ht]
      have hteq : t.id = task_id := by simpa using htid
      simp [hteq]
    · intro h; subst h; simp [SyncDB.patchTask]
    · intro h; subst h; simp [SyncDB.patchTask]
    · intro h; subst h; simp [SyncDB.patchTask]
    · intro h; subst h; simp [SyncDB.patchTask]
    · intro h; subst h; simp [SyncDB.patchTask]
    · rw [getTaskRow_update_task db task_id status phase result assigned_agent
        pid now x hb]
      cases hu : SyncDB.getTaskRow db x with
      | none => rfl
      | some u =>
        have hux : u.id = x := by simpa using getTaskRow_id hu
        simp [hux, hx]

/-- Store used by the C10 witness: one task row with id "a". -/
def dbC10 : DB :=
  { tasks := [{ id := "a", title := "T", status := "pending" }] }

theorem C10_update_task_partial_patch_witness :
    SyncDB.update_task dbC10 "a" none none none none none 9
      = (dbC10, SyncDB.get_task dbC10 "a") :=
  (C10_update_task_partial_patch dbC10 "a" none none none none none 9
    { id := "a", title := "T", status := "pending" } (by rfl)).2.2

/-! ### QueueManager (queue_manager.py) -/

/-- In-memory record of one spawned Claude process (`ProcessInfo`), the
subprocess handle reduced to its pid and return code. -/
structure ProcessInfo where
  task_id : String
  pid : Int
  returncode : Option Int := none
  prompt : String := ""
deriving DecidableEq, Repr

/-- The in-memory state of a `QueueManager`: its `_processes` dict in
insertion order. The `SyncDB` it owns is passed to each operation. -/
structure QueueManager where
  processes : List (String × ProcessInfo) := []
deriving DecidableEq, Repr

namespace QueueManager

/-- Model of `self._processes.get(task_id)`. -/
def getProcess (qm : QueueManager) (task_id : String) : Option ProcessInfo :=
  (qm.processes.find? (fun p => p.1 == task_id)).map (fun p => p.2)

/-- Outcome of `asyncio.create_subprocess_exec` in `spawn`: success with the
child's pid, `FileNotFoundError` (Claude CLI missing), or any other
exception with its message. -/
inductive LaunchOutcome where
  | ok (pid : Int)
  | cliNotFound
  | spawnError (msg : String)
deriving DecidableEq, Repr

/-- Outcome of delivering a signal to a process: delivered, or the process
was already gone (`ProcessLookupError`). -/
inductive SignalOutcome where
  | delivered
  | processGone
deriving DecidableEq, Repr

/-- Result of `QueueManager.spawn`: the returned bool, the new in-memory and
store states, and how many OS processes the call created. -/
structure SpawnResult where
  ok : Bool
  qm : QueueManager
  db : DB
  processesCreated : Nat
deriving DecidableEq, Repr

/-- Model of `QueueManager.spawn`: refuse if the task already has a tracked process;
otherwise launch (outcome given by `launch`), register the process, persist
pid, flip status to in_progress and log; on launch failure mark the task
failed. -/
def spawn (qm : QueueManager) (db : DB) (task_id prompt : String)
    (launch : LaunchOutcome) (now : Nat) : SpawnResult :=
  if (qm.processes.find? (fun p => p.1 == task_id)).isSome then
    { ok := false, qm := qm, db := db, processesCreated := 0 }
  else
    match launch with
    | .ok pid =>
      let qm1 : QueueManager :=
        { processes := qm.processes ++
            [(task_id, { task_id := task_id, pid := pid, prompt := prompt })] }
      let db1 := (SyncDB.update_task db task_id (some "in_progress") none none
        none (some (some pid)) now).1
      let db2 := SyncDB.log_activity db1 task_id "message" none
        ("Claude process started (PID " ++ toString pid ++ ")") now
      { ok := true, qm := qm1, db := db2, processesCreated := 1 }
    | .cliNotFound =>
      { ok := false, qm := qm,
        db := (SyncDB.update_task db task_id (some "failed") none
          (some "Claude CLI not found") none none now).1,
        processesCreated := 0 }
    | .spawnError msg =>
      { ok := false, qm := qm,
        db := (SyncDB.update_task db task_id (some "failed") none
          (some ("Spawn error: " ++ msg)) none none now).1,
        processesCreated := 0 }

/-- Model of `QueueManager.cancel`: tracked in-memory process (signal, swallow
`ProcessLookupError`, mark failed, log, deregister); else pid-based kill of a
live orphaned process; else clear a stale pid; else return false. The
`alive` parameter is the `_is_pid_alive` probe, `sig` the outcome of signal
delivery. -/
def cancel (qm : QueueManager) (db : DB) (task_id : String)
    (alive : Int → Bool) (sig : SignalOutcome) (now : Nat) :
    Bool × QueueManager × DB :=
  match qm.processes.find? (fun p => p.1 == task_id) with
  | some _ =>
    -- SIGTERM / bounded wait / SIGKILL; a ProcessLookupError (sig =
    -- .processGone) is swallowed, so the state below does not depend on sig
    let db1 := (SyncDB.update_task db task_id (some "failed") none
      (some "Cancelled by user") none (some none) now).1
    let db2 := SyncDB.log_activity db1 task_id "message" none
      "Process cancelled by user" now
    (true, { processes := qm.processes.filter (fun p => !(p.1 == task_id)) }, db2)
  | none =>
    let pid := SyncDB.get_task_pid db task_id
    if optIntTruthy pid && alive (pid.getD 0) then
      -- os.kill SIGTERM / sleep / SIGKILL; ProcessLookupError swallowed
      let db1 := (SyncDB.update_task db task_id (some "failed") none
        (some "Cancelled by user") none (some none) now).1
      let db2 := SyncDB.log_activity db1 task_id "message" none
        "Orphaned process cancelled by user" now
      (true, qm, db2)
    else if optIntTruthy pid then
      (true, qm,
        (SyncDB.update_task db task_id (some "failed") none
          (some "Cancelled by user") none (some none) now).1)
    else
      (false, qm, db)

/-- One iteration of the `recover_orphans` loop over the pre-fetched orphan
list; returns the final store and the ids of the tasks that got the
live-orphan warning, in order. -/
def recoverOrphansGo (alive : Int → Bool) (now : Nat) :
    DB → List Task → DB × List String
  | db, [] => (db, [])
  | db, o :: rest =>
    match o.pid with
    | some p =>
      if alive p then
        let db1 := SyncDB.log_activity db o.id "message" none
          ("Server restarted — orphaned process (PID " ++ toString p
            ++ ") still alive") now
        let r := recoverOrphansGo alive now db1 rest
        (r.1, o.id :: r.2)
      else
        let db1 := (SyncDB.update_task db o.id (some "failed") none
          (some ("Process (PID " ++ toString p ++ ") died during server restart"))
          none (some none) now).1
        let db2 := SyncDB.log_activity db1 o.id "message" none
          ("Server restarted — process (PID " ++ toString p
            ++ ") no longer running, marked failed") now
        recoverOrphansGo alive now db2 rest
    | none =>
      -- unreachable: get_orphaned_tasks only returns rows with pid NOT NULL
      recoverOrphansGo alive now db rest

/-- Model of `QueueManager.recover_orphans`: startup scan of in_progress tasks with a
persisted pid. -/
def recover_orphans (db : DB) (alive : Int → Bool) (now : Nat) :
    DB × List String :=
  recoverOrphansGo alive now db (SyncDB.get_orphaned_tasks db)

/-- The tail of `QueueManager._stream_and_monitor` after both output streams
closed and the process exited: the completion / failure handling plus the
`finally` block (deregister and clear pid). -/
def handleExit (qm : QueueManager) (db : DB) (task_id : String)
    (return_code : Int) (stderr_output : String) (now : Nat) :
    QueueManager × DB :=
  let dbA :=
    if return_code == 0 then
      let dbZ :=
        match SyncDB.getTaskRow db task_id with
        | some task =>
          if task.status ≠ "completed" then
            (SyncDB.update_task db task_id (some "completed")
              (some "completion") (some "Process completed successfully")
              none none now).1
          else if task.phase ≠ some "completion" then
            (SyncDB.update_task db task_id none (some "completion") none
              none none now).1
          else db
        | none => db
      SyncDB.log_activity dbZ task_id "message" none
        "Claude process completed" now
    else
      let error_msg := stderr_output.takeRight 500
      let db1 := (SyncDB.update_task db task_id (some "failed") none
        (some (("Process exited with code " ++ toString return_code ++ ". "
          ++ error_msg).trim)) none none now).1
      SyncDB.log_activity db1 task_id "error" none
        ("Process failed (exit code " ++ toString return_code ++ ")") now
  ({ processes := qm.processes.filter (fun p => !(p.1 == task_id)) },
    (SyncDB.update_task dbA task_id none none none none (some none) now).1)

end QueueManager

/-- C1: spawn on a task that already has a tracked live process is a no-op
returning false: no OS process is created, the registry and the whole store
(in particular the task row's status and pid) are unchanged. -/
theorem C1_spawn_already_tracked (qm : QueueManager) (db : DB)
    (task_id prompt : String) (launch : QueueManager.LaunchOutcome) (now : Nat)
    (info : ProcessInfo)
    (htracked : QueueManager.getProcess qm task_id = some info)
    (hlive : info.returncode = none) :
    QueueManager.spawn qm db task_id prompt launch now
      = { ok := false, qm := qm, db := db, processesCreated := 0 } := by
  have hsome : (qm.processes.find? (fun p => p.1 == task_id)).isSome := by
    unfold QueueManager.getProcess at htracked
    cases hf : qm.processes.find? (fun p => p.1 == task_id) <;>
      rw [hf] at htracked
    · simp at htracked
    · simp
  unfold QueueManager.spawn
  rw [if_pos hsome]

/-- Registry and store used by the C1 and C3 witnesses: task t1 is tracked
with a live process, and has two unrelated pending questions. -/
def qmTracked : QueueManager :=
  { processes := [("t1", { task_id := "t1", pid := 42 })] }

def dbTracked : DB :=
  { tasks := [{ id := "t1", status := "in_progress", pid := some 42 }],
    questions := [{ id := "q1", task_id := "t1" }, { id := "q2", task_id := "t1" }] }

theorem C1_spawn_already_tracked_witness :
    QueueManager.spawn qmTracked dbTracked "t1" "do X"
        (QueueManager.LaunchOutcome.ok 43) 5
      = { ok := false, qm := qmTracked, db := dbTracked, processesCreated := 0 } :=
  C1_spawn_already_tracked qmTracked dbTracked "t1" "do X"
    (QueueManager.LaunchOutcome.ok 43) 5 { task_id := "t1", pid := 42 }
    (by rfl) rfl

/-- Updating a task other than row `x` leaves row `x` unchanged. -/
theorem getTaskRow_update_other (db : DB) (tid : String)
    (st ph r ag : Option String) (pd : Option (Option Int)) (now : Nat)
    (x : String)
    (hb : (st.isNone && ph.isNone && r.isNone && ag.isNone && pd.isNone) = false)
    (hx : x ≠ tid) :
    SyncDB.getTaskRow (SyncDB.update_task db tid st ph r ag pd now).1 x
      = SyncDB.getTaskRow db x := by
  rw [getTaskRow_update_task db tid st ph r ag pd now x hb]
  cases hu : SyncDB.getTaskRow db x with
  | none => rfl
  | some u =>
    have hux : u.id = x := by simpa using getTaskRow_id hu
    simp [hux, hx]

/-- The orphan-recovery loop does not touch rows whose id is not in the
orphan list, and warns about none of them. -/
theorem recoverGo_frame (alive : Int → Bool) (now : Nat) :
    ∀ (os : List Task) (db : DB) (x : String), (∀ o ∈ os, o.id ≠ x) →
      SyncDB.getTaskRow (QueueManager.recoverOrphansGo alive now db os).1 x
          = SyncDB.getTaskRow db x
      ∧ (QueueManager.recoverOrphansGo alive now db os).2.count x = 0 := by
  intro os
  induction os with
  | nil => intro db x _; exact ⟨rfl, rfl⟩
  | cons o rest ih =>
    intro db x h
    have ho : o.id ≠ x := h o (List.mem_cons_self o rest)
    have hrest : ∀ o' ∈ rest, o'.id ≠ x :=
      fun o' h' => h o' (List.mem_cons_of_mem _ h')
    cases hp : o.pid with
    | none =>
      simp only [QueueManager.recoverOrphansGo, hp]
      exact ih db x hrest
    | some p =>
      cases ha : alive p with
      | true =>
        simp only [QueueManager.recoverOrphansGo, hp, ha, if_true]
        refine ⟨(ih _ x hrest).1.trans rfl, ?_⟩
        rw [List.count_cons_of_ne (fun hc => ho hc.symm)]
        exact (ih _ x hrest).2
      | false =>
        simp only [QueueManager.recoverOrphansGo, hp, ha, Bool.false_eq_true,
          if_false]
        refine ⟨(ih _ x hrest).1.trans ?_, (ih _ x hrest).2⟩
        rw [getTaskRow_log_activity]
        exact getTaskRow_update_other db o.id (some "failed") none
          (some ("Process (PID " ++ toString p ++ ") died during server restart"))
          none (some none) now x rfl (fun hc => ho hc.symm)

/-- Effect of the orphan-recovery loop on the row of an orphan `o` present
in the processed list (whose ids are distinct). -/
theorem recoverGo_hit (alive : Int → Bool) (now : Nat) :
    ∀ (os : List Task) (db : DB) (o : Task) (p : Int),
      o ∈ os → o.pid = some p → (os.map (fun u => u.id)).Nodup →
      (alive p = true →
        SyncDB.getTaskRow (QueueManager.recoverOrphansGo alive now db os).1 o.id
            = SyncDB.getTaskRow db o.id
        ∧ (QueueManager.recoverOrphansGo alive now db os).2.count o.id = 1)
      ∧ (alive p = false →
        SyncDB.getTaskRow (QueueManager.recoverOrphansGo alive now db os).1 o.id
            = (SyncDB.getTaskRow db o.id).map (fun u =>
                if u.id == o.id then
                  SyncDB.patchTask (some "failed") none
                    (some ("Process (PID " ++ toString p
                      ++ ") died during server restart"))
                    none (some none) now u
                else u)
        ∧ (QueueManager.recoverOrphansGo alive now db os).2.count o.id = 0) := by
  intro os
  induction os with
  | nil => intro db o p hmem; exact absurd hmem (List.not_mem_nil o)
  | cons o₀ rest ih =>
    intro db o p hmem hp hnd
    rw [List.map_cons, List.nodup_cons] at hnd
    cases List.mem_cons.mp hmem with
    | inl heq =>
      subst heq
      have hrest : ∀ o' ∈ rest, o'.id ≠ o.id := by
        intro o' h' hc
        exact hnd.1 (hc ▸ List.mem_map_of_mem (fun u => u.id) h')
      constructor
      · intro ha
        simp only [QueueManager.recoverOrphansGo, hp, ha, if_true]
        refine ⟨(recoverGo_frame alive now rest _ o.id hrest).1.trans rfl, ?_⟩
        rw [List.count_cons_self, (recoverGo_frame alive now rest _ o.id hrest).2]
      · intro ha
        simp only [QueueManager.recoverOrphansGo, hp, ha, Bool.false_eq_true,
          if_false]
        refine ⟨(recoverGo_frame alive now rest _ o.id hrest).1.trans ?_,
          (recoverGo_frame alive now rest _ o.id hrest).2⟩
        rw [getTaskRow_log_activity]
        exact getTaskRow_update_task db o.id (some "failed") none
          (some ("Process (PID " ++ toString p ++ ") died during server restart"))
          none (some none) now o.id rfl
    | inr hmem' =>
      have hne : o₀.id ≠ o.id := by
        intro hc
        exact hnd.1 (hc ▸ List.mem_map_of_mem (fun u => u.id) hmem')
      cases hp₀ : o₀.pid with
      | none =>
        simp only [QueueManager.recoverOrphansGo, hp₀]
        exact ih db o p hmem' hp hnd.2
      | some p₀ =>
        cases ha₀ : alive p₀ with
        | true =>
          simp only [QueueManager.recoverOrphansGo, hp₀, ha₀, if_true]
          have hih := ih (SyncDB.log_activity db o₀.id "message" none
            ("Server restarted — orphaned process (PID " ++ toString p₀
              ++ ") still alive") now) o p hmem' hp hnd.2
          constructor
          · intro ha
            refine ⟨((hih.1 ha).1.trans (getTaskRow_log_activity _ _ _ _ _ _ _)), ?_⟩
            rw [List.count_cons_of_ne (fun hc => hne hc.symm)]
            exact (hih.1 ha).2
          · intro ha
            refine ⟨((hih.2 ha).1.trans ?_), ?_⟩
            · rw [getTaskRow_log_activity]
            · rw [List.count_cons_of_ne (fun hc => hne hc.symm)]
              exact (hih.2 ha).2
        | false =>
          simp only [QueueManager.recoverOrphansGo, hp₀, ha₀, Bool.false_eq_true,
            if_false]
          have hstep : SyncDB.getTaskRow
              (SyncDB.log_activity ((SyncDB.update_task db o₀.id (some "failed")
                none (some ("Process (PID " ++ toString p₀
                  ++ ") died during server restart")) none (some none) now).1)
                o₀.id "message" none
                ("Server restarted — process (PID " ++ toString p₀
                  ++ ") no longer running, marked failed") now) o.id
              = SyncDB.getTaskRow db o.id := by
            rw [getTaskRow_log_activity]
            exact getTaskRow_update_other db o₀.id (some "failed") none
              (some ("Process (PID " ++ toString p₀
                ++ ") died during server restart"))
              none (some none) now o.id rfl (fun hc => hne hc.symm)
          have hih := ih (SyncDB.log_activity ((SyncDB.update_task db o₀.id
            (some "failed") none (some ("Process (PID " ++ toString p₀
              ++ ") died during server restart")) none (some none) now).1)
            o₀.id "message" none
            ("Server restarted — process (PID " ++ toString p₀
              ++ ") no longer running, marked failed") now) o p hmem' hp hnd.2
          exact ⟨fun ha => ⟨(hih.1 ha).1.trans hstep, (hih.1 ha).2⟩,
            fun ha => ⟨(hih.2 ha).1.trans (by rw [hstep]), (hih.2 ha).2⟩⟩

/-- C4: after `recover_orphans`, every task that was in_progress with a
persisted pid whose process is dead is failed with pid cleared and an
explanatory result; every such task with a live pid keeps its row unchanged
and is warned about exactly once; tasks not matching the orphan query are
untouched and get no warning. Task ids are assumed unique (primary key). -/
theorem C4_recover_orphans (db : DB) (alive : Int → Bool) (now : Nat) (t : Task)
    (hnd : (db.tasks.map (fun u => u.id)).Nodup)
    (ht : SyncDB.getTaskRow db t.id = some t) :
    (∀ p, t.status = "in_progress" → t.pid = some p → alive p = false →
      ∃ t', SyncDB.getTaskRow (QueueManager.recover_orphans db alive now).1 t.id
            = some t'
        ∧ t'.status = "failed" ∧ t'.pid = none
        ∧ t'.result = some ("Process (PID " ++ toString p
            ++ ") died during server restart"))
    ∧ (∀ p, t.status = "in_progress" → t.pid = some p → alive p = true →
        SyncDB.getTaskRow (QueueManager.recover_orphans db alive now).1 t.id
            = some t
        ∧ (QueueManager.recover_orphans db alive now).2.count t.id = 1)
    ∧ (¬(t.status = "in_progress" ∧ t.pid.isSome = true) →
        SyncDB.getTaskRow (QueueManager.recover_orphans db alive now).1 t.id
            = some t
        ∧ (QueueManager.recover_orphans db alive now).2.count t.id = 0) := by
  have ht' : db.tasks.find? (fun u => u.id == t.id) = some t := ht
  have hmemt : t ∈ db.tasks := List.mem_of_find?_eq_some ht'
  have hndo : ((SyncDB.get_orphaned_tasks db).map (fun u => u.id)).Nodup :=
    ((List.filter_sublist db.tasks).map (fun u => u.id)).nodup hnd
  refine ⟨?_, ?_, ?_⟩
  · intro p hst hp ha
    have hmemo : t ∈ SyncDB.get_orphaned_tasks db :=
      List.mem_filter.mpr ⟨hmemt, by simp [hst, hp]⟩
    have h := (recoverGo_hit alive now (SyncDB.get_orphaned_tasks db) db t p
      hmemo hp hndo).2 ha
    refine ⟨SyncDB.patchTask (some "failed") none
      (some ("Process (PID " ++ toString p ++ ") died during server restart"))
      none (some none) now t, ?_, rfl, rfl, rfl⟩
    unfold QueueManager.recover_orphans
    rw [h.1, ht]
    simp
  · intro p hst hp ha
    have hmemo : t ∈ SyncDB.get_orphaned_tasks db :=
      List.mem_filter.mpr ⟨hmemt, by simp [hst, hp]⟩
    have h := (recoverGo_hit alive now (SyncDB.get_orphaned_tasks db) db t p
      hmemo hp hndo).1 ha
    unfold QueueManager.recover_orphans
    exact ⟨h.1.trans ht, h.2⟩
  · intro hnp
    have hno : ∀ o ∈ SyncDB.get_orphaned_tasks db, o.id ≠ t.id := by
      intro o ho hc
      have hot : o ∈ db.tasks := (List.mem_filter.mp ho).1
      have hpo := (List.mem_filter.mp ho).2
      have : o = t := List.inj_on_of_nodup_map hnd hot hmemt hc
      subst this
      simp only [Bool.and_eq_true, beq_iff_eq] at hpo
      exact hnp ⟨hpo.1, hpo.2⟩
    unfold QueueManager.recover_orphans
    exact ⟨(recoverGo_frame alive now _ db t.id hno).1.trans ht,
      (recoverGo_frame alive now _ db t.id hno).2⟩

/-- Store used by the C4 witness: a dead orphan "d" (pid 7), a live orphan
"a" (pid 8), and an untouched pending task "u". -/
def dbC4 : DB :=
  { tasks :=
      [{ id := "d", status := "in_progress", pid := some 7 },
       { id := "a", status := "in_progress", pid := some 8 },
       { id := "u", status := "pending" }] }

/-- Liveness probe of the C4 witness: only pid 8 is alive. -/
def aliveC4 : Int → Bool := fun p => p == 8

theorem C4_recover_orphans_witness :
    ∃ t', SyncDB.getTaskRow (QueueManager.recover_orphans dbC4 aliveC4 5).1 "d"
          = some t'
      ∧ t'.status = "failed" ∧ t'.pid = none
      ∧ t'.result = some ("Process (PID " ++ toString (7 : Int)
          ++ ") died during server restart") :=
  (C4_recover_orphans dbC4 aliveC4 5
    { id := "d", status := "in_progress", pid := some 7 }
    (by decide) (by rfl)).1 7 rfl rfl (by rfl)

/-- After deregistering, the process map no longer tracks the task. -/
theorem getProcess_erase (qm : QueueManager) (task_id : String) :
    QueueManager.getProcess
        { processes := qm.processes.filter (fun p => !(p.1 == task_id)) }
        task_id = none := by
  unfold QueueManager.getProcess
  have : (qm.processes.filter (fun p => !(p.1 == task_id))).find?
      (fun p => p.1 == task_id) = none := by
    rw [List.find?_eq_none]
    intro x hx
    have := (List.mem_filter.mp hx).2
    simp at this ⊢
    exact this
  rw [this]
  rfl

/-- A `log_activity` call leaves an entry with the given task, type and message. -/
theorem log_activity_mem (db : DB) (task_id et : String) (ag : Option String)
    (msg : String) (now : Nat) :
    ∃ e ∈ (SyncDB.log_activity db task_id et ag msg now).activity,
      e.task_id = task_id ∧ e.event_type = et ∧ e.message = msg := by
  refine ⟨⟨db.nextActivityId, task_id, et, ag, msg, "{}", now⟩, ?_, rfl, rfl, rfl⟩
  simp [SyncDB.log_activity]

/-- Store used by the C2 counterexample: the child process set its task to
status "failed" (with phase already "completion") through a tool call before
exiting with code 0. -/
def dbChildFailed : DB :=
  { tasks := [{ id := "t1", status := "failed", phase := some "completion",
                result := some "child marked this failed", pid := some 42 }] }

/-- Empty process registry. -/
def qmEmpty : QueueManager := { processes := [] }

/-- C2 counterexample: on exit code 0 the completion handler overwrites a
child-set final status "failed" with "completed" — only a child-set
"completed" survives, so "last writer wins for completed/failed" is false as
stated. -/
theorem C2_counterexample :
    (SyncDB.getTaskRow dbChildFailed "t1").map (fun u => u.status)
        = some "failed"
    ∧ (SyncDB.getTaskRow
          (QueueManager.handleExit qmEmpty dbChildFailed "t1" 0 "" 7).2 "t1").map
        (fun u => u.status) = some "completed" :=
  ⟨rfl, rfl⟩

/-- C2 (amended): when the monitored process exits, the registry entry is
removed and the persisted pid cleared; on exit code 0 the task ends
completed with phase "completion" (preserving the child's result only when
the child had already set status "completed"; a child-set "failed" is
overwritten) and a completion activity entry is logged; on nonzero exit the
task ends failed with a result carrying the trailing 500-character excerpt
of stderr, and an error activity entry is logged. -/
theorem C2_exit_handler (qm : QueueManager) (db : DB) (task_id : String)
    (return_code : Int) (stderr_output : String) (now : Nat) (t : Task)
    (ht : SyncDB.getTaskRow db task_id = some t) :
    QueueManager.getProcess
        (QueueManager.handleExit qm db task_id return_code stderr_output now).1
        task_id = none
    ∧ (return_code = 0 →
        ∃ t', SyncDB.getTaskRow
            (QueueManager.handleExit qm db task_id return_code stderr_output now).2
              task_id = some t'
          ∧ t'.status = "completed" ∧ t'.phase = some "completion"
          ∧ t'.pid = none
          ∧ (t.status = "completed" → t'.result = t.result)
          ∧ (t.status ≠ "completed" →
              t'.result = some "Process completed successfully")
          ∧ ∃ e ∈ (QueueManager.handleExit qm db task_id return_code
                stderr_output now).2.activity,
              e.task_id = task_id ∧ e.message = "Claude process completed")
    ∧ (return_code ≠ 0 →
        ∃ t', SyncDB.getTaskRow
            (QueueManager.handleExit qm db task_id return_code stderr_output now).2
              task_id = some t'
          ∧ t'.status = "failed" ∧ t'.pid = none
          ∧ t'.result = some (("Process exited with code " ++ toString return_code
              ++ ". " ++ stderr_output.takeRight 500).trim)
          ∧ ∃ e ∈ (QueueManager.handleExit qm db task_id return_code
                stderr_output now).2.activity,
              e.task_id = task_id ∧ e.event_type = "error") := by
  have hteq : t.id = task_id := by simpa using getTaskRow_id ht
  have hclear : ∀ d : DB, SyncDB.getTaskRow
      (SyncDB.update_task d task_id none none none none (some none) now).1 task_id
      = (SyncDB.getTaskRow d task_id).map (fun u =>
          if u.id == task_id then
            SyncDB.patchTask none none none none (some none) now u
          else u) :=
    fun d => getTaskRow_update_task d task_id none none none none (some none)
      now task_id rfl
  refine ⟨getProcess_erase qm task_id, ?_, ?_⟩
  · intro h0
    subst h0
    unfold QueueManager.handleExit
    simp only [ht]
    by_cases hs : t.status = "completed"
    · by_cases hph : t.phase = some "completion"
      · rw [if_pos (by simp), if_neg (fun hc => hc hs), if_neg (fun hc => hc hph)]
        refine ⟨SyncDB.patchTask none none none none (some none) now t,
          ?_, hs, hph, rfl, fun _ => rfl, fun hc => absurd hs hc, ?_⟩
        · rw [hclear, getTaskRow_log_activity, ht]
          simp [hteq]
        · obtain ⟨e, he, h1, _, h3⟩ := log_activity_mem db task_id "message"
            none "Claude process completed" now
          exact ⟨e, he, h1, h3⟩
      · rw [if_pos (by simp), if_neg (fun hc => hc hs), if_pos hph]
        have hrow := getTaskRow_update_task db task_id none (some "completion")
          none none none now task_id rfl
        refine ⟨SyncDB.patchTask none none none none (some none) now
          (SyncDB.patchTask none (some "completion") none none none now t),
          ?_, hs, rfl, rfl, fun _ => rfl, fun hc => absurd hs hc, ?_⟩
        · rw [hclear, getTaskRow_log_activity, hrow, ht]
          simp [patchTask_id, hteq]
        · obtain ⟨e, he, h1, _, h3⟩ := log_activity_mem
            ((SyncDB.update_task db task_id none (some "completion") none none
              none now).1) task_id "message" none "Claude process completed" now
          exact ⟨e, he, h1, h3⟩
    · rw [if_pos (by simp), if_pos hs]
      have hrow := getTaskRow_update_task db task_id (some "completed")
        (some "completion") (some "Process completed successfully") none none
        now task_id rfl
      refine ⟨SyncDB.patchTask none none none none (some none) now
        (SyncDB.patchTask (some "completed") (some "completion")
          (some "Process completed successfully") none none now t),
        ?_, rfl, rfl, rfl, fun hc => absurd hc hs, fun _ => rfl, ?_⟩
      · rw [hclear, getTaskRow_log_activity, hrow, ht]
        simp [patchTask_id, hteq]
      · obtain ⟨e, he, h1, _, h3⟩ := log_activity_mem
          ((SyncDB.update_task db task_id (some "completed") (some "completion")
            (some "Process completed successfully") none none now).1)
          task_id "message" none "Claude process completed" now
        exact ⟨e, he, h1, h3⟩
  · intro hne
    unfold QueueManager.handleExit
    rw [if_neg (by simp [hne])]
    have hrow := getTaskRow_update_task db task_id (some "failed") none
      (some (("Process exited with code " ++ toString return_code ++ ". "
        ++ stderr_output.takeRight 500).trim)) none none now task_id rfl
    refine ⟨SyncDB.patchTask none none none none (some none) now
      (SyncDB.patchTask (some "failed") none
        (some (("Process exited with code " ++ toString return_code ++ ". "
          ++ stderr_output.takeRight 500).trim)) none none now t),
      ?_, rfl, rfl, rfl, ?_⟩
    · rw [hclear, getTaskRow_log_activity, hrow, ht]
      simp [patchTask_id, hteq]
    · have h := log_activity_mem
        ((SyncDB.update_task db task_id (some "failed") none
          (some (("Process exited with code " ++ toString return_code ++ ". "
            ++ stderr_output.takeRight 500).trim)) none none now).1)
        task_id "error" none
        ("Process failed (exit code " ++ toString return_code ++ ")") now
      obtain ⟨e, he, h1, h2, _⟩ := h
      exact ⟨e, he, h1, h2⟩

/-- Store used by the C2 witness: an in_progress task about to exit. -/
def dbC2w : DB :=
  { tasks := [{ id := "t1", status := "in_progress", phase := some "testing",
                pid := some 42 }] }

theorem C2_exit_handler_witness :
    QueueManager.getProcess
        (QueueManager.handleExit qmEmpty dbC2w "t1" 0 "" 7).1 "t1" = none
    ∧ ∃ t', SyncDB.getTaskRow
          (QueueManager.handleExit qmEmpty dbC2w "t1" 0 "" 7).2 "t1" = some t'
        ∧ t'.status = "completed" ∧ t'.phase = some "completion"
        ∧ t'.pid = none := by
  obtain ⟨h1, h2, _⟩ := C2_exit_handler qmEmpty dbC2w "t1" 0 "" 7
    { id := "t1", status := "in_progress", phase := some "testing",
      pid := some 42 } (by rfl)
  obtain ⟨t', ha, hb, hc, hd, _⟩ := h2 rfl
  exact ⟨h1, t', ha, hb, hc, hd⟩

/-- C3: whenever `cancel` finds something to cancel — a tracked in-memory
process, a live orphan reachable through the persisted pid, or a stale pid
with the process already dead — it returns true and leaves the task failed
with result "Cancelled by user" and pid cleared, for every store (hence also
with unrelated pending questions, so never blocked) and for every signal
outcome (a `ProcessLookupError` race is swallowed). -/
theorem C3_cancel_end_state (qm : QueueManager) (db : DB) (task_id : String)
    (alive : Int → Bool) (sig : QueueManager.SignalOutcome) (now : Nat)
    (t : Task) (ht : SyncDB.getTaskRow db task_id = some t)
    (hbranch : (QueueManager.getProcess qm task_id).isSome
      ∨ optIntTruthy (SyncDB.get_task_pid db task_id)) :
    (QueueManager.cancel qm db task_id alive sig now).1 = true
    ∧ ∃ t', SyncDB.getTaskRow
          (QueueManager.cancel qm db task_id alive sig now).2.2 task_id = some t'
        ∧ t'.status = "failed" ∧ t'.result = some "Cancelled by user"
        ∧ t'.pid = none ∧ t'.status ≠ "blocked" := by
  have hrow : ∀ d : DB, SyncDB.getTaskRow d task_id = some t →
      ∃ t', SyncDB.getTaskRow
          ((SyncDB.update_task d task_id (some "failed") none
            (some "Cancelled by user") none (some none) now).1) task_id = some t'
        ∧ t'.status = "failed" ∧ t'.result = some "Cancelled by user"
        ∧ t'.pid = none ∧ t'.status ≠ "blocked" := by
    intro d hd
    have hteq : t.id = task_id := by simpa using getTaskRow_id hd
    refine ⟨SyncDB.patchTask (some "failed") none (some "Cancelled by user")
      none (some none) now t, ?_, rfl, rfl, rfl,
      show ("failed" : String) ≠ "blocked" by decide⟩
    rw [getTaskRow_update_task d task_id (some "failed") none
      (some "Cancelled by user") none (some none) now task_id rfl, hd]
    simp [hteq]
  unfold QueueManager.cancel
  cases hf : qm.processes.find? (fun p => p.1 == task_id) with
  | some p =>
    simp only [hf]
    exact ⟨by trivial, hrow db ht⟩
  | none =>
    cases hbranch with
    | inl h =>
      rw [QueueManager.getProcess, hf] at h
      simp at h
    | inr hp =>
      simp only [hf]
      cases halive : alive ((SyncDB.get_task_pid db task_id).getD 0) with
      | true =>
        rw [if_pos (by simp [hp, halive])]
        exact ⟨by trivial, hrow db ht⟩
      | false =>
        rw [if_neg (by simp [halive]), if_pos hp]
        exact ⟨by trivial, hrow db ht⟩

theorem C3_cancel_end_state_witness :
    (QueueManager.cancel qmTracked dbTracked "t1" (fun _ => false)
        QueueManager.SignalOutcome.processGone 5).1 = true
    ∧ ∃ t', SyncDB.getTaskRow
          (QueueManager.cancel qmTracked dbTracked "t1" (fun _ => false)
            QueueManager.SignalOutcome.processGone 5).2.2 "t1" = some t'
        ∧ t'.status = "failed" ∧ t'.result = some "Cancelled by user"
        ∧ t'.pid = none ∧ t'.status ≠ "blocked" :=
  C3_cancel_end_state qmTracked dbTracked "t1" (fun _ => false)
    QueueManager.SignalOutcome.processGone 5
    { id := "t1", status := "in_progress", pid := some 42 } (by rfl)
    (Or.inl (by rfl))

/-! ### MCP question tools (mcp_tools.py) -/

/-- mcp_tools.QUESTION_TIMEOUT: 30 minutes (seconds). -/
def QUESTION_TIMEOUT : Nat := 30 * 60

/-- mcp_tools.QUESTION_POLL_INTERVAL (seconds). -/
def QUESTION_POLL_INTERVAL : Nat := 2

/-- Value returned by `dashboard_ask_question`, plus the number of poll
sleeps performed before returning. -/
structure AskResult where
  answer : String
  auto_accepted : Bool
  timed_out : Bool
  polls : Nat
deriving DecidableEq, Repr

/-- The poll loop of `dashboard_ask_question`, fuel = remaining polls before
the 30-minute ceiling. `sched i` is the answer visible in the store at poll
`i`: the answer endpoint writes answers through `SyncDB.answer_question`, so
an observed external answer is modelled by applying that operation. -/
def askLoop (db : DB) (task_id question_id : String)
    (sched : Nat → Option String) (now : Nat) : Nat → Nat → DB × AskResult
  | i, 0 =>
    let db1 := SyncDB.answer_question db question_id
      "[TIMEOUT - no answer received]" false now
    let remaining := SyncDB.get_questions db1 task_id true
    let db2 :=
      if remaining.isEmpty then
        (SyncDB.update_task db1 task_id (some "in_progress") none none none
          none now).1
      else db1
    (db2, { answer := "[TIMEOUT]", auto_accepted := false, timed_out := true,
            polls := i })
  | i, fuel+1 =>
    match sched i with
    | some a =>
      let db1 := SyncDB.answer_question db question_id a false now
      let remaining := SyncDB.get_questions db1 task_id true
      let db2 :=
        if remaining.isEmpty then
          (SyncDB.update_task db1 task_id (some "in_progress") none none none
            none now).1
        else db1
      (db2, { answer := a, auto_accepted := false, timed_out := false,
              polls := i })
    | none => askLoop db task_id question_id sched now (i+1) fuel

/-- Model of `dashboard_ask_question`: auto_accept synthesizes a default answer
(first option if options given, else "approved" for plan_review, else "yes"),
persists the question already answered with auto_accepted, and returns at
once; otherwise the question is persisted unanswered, the task set to
blocked, and the store polled until an answer or the timeout ceiling. -/
def dashboard_ask_question (db : DB) (task_id question : String)
    (question_type : String) (options : Option (List String))
    (context agent : Option String) (question_id : String)
    (sched : Nat → Option String) (now : Nat) : DB × AskResult :=
  if (match SyncDB.getTaskRow db task_id with
      | some t => t.auto_accept
      | none => false) then
    let default_answer :=
      match options with
      | some (o :: _) => o
      | _ => if question_type == "plan_review" then "approved" else "yes"
    let db1 := SyncDB.create_question db question_id task_id question agent
      question_type options context now
    let db2 := SyncDB.answer_question db1 question_id default_answer true now
    (db2, { answer := default_answer, auto_accepted := true,
            timed_out := false, polls := 0 })
  else
    let db1 := SyncDB.create_question db question_id task_id question agent
      question_type options context now
    let db2 := (SyncDB.update_task db1 task_id (some "blocked") none none none
      none now).1
    askLoop db2 task_id question_id sched now 0
      (QUESTION_TIMEOUT / QUESTION_POLL_INTERVAL)

/-- An `answer_question` call only touches the questions table (and the log). -/
theorem tasks_answer_question (db : DB) (question_id ans : String)
    (auto : Bool) (now : Nat) :
    (SyncDB.answer_question db question_id ans auto now).tasks = db.tasks := by
  unfold SyncDB.answer_question
  dsimp only
  split <;> rfl

theorem questions_answer_question (db : DB) (question_id ans : String)
    (auto : Bool) (now : Nat) :
    (SyncDB.answer_question db question_id ans auto now).questions
      = db.questions.map (fun q =>
          if q.id == question_id then
            { q with answer := some ans, answered_at := some now,
                     auto_accepted := auto }
          else q) := by
  unfold SyncDB.answer_question
  dsimp only
  split <;> rfl

/-- An `update_task` call never touches the questions table. -/
theorem questions_update_task (db : DB) (tid : String)
    (st ph r ag : Option String) (pd : Option (Option Int)) (now : Nat) :
    ((SyncDB.update_task db tid st ph r ag pd now).1).questions
      = db.questions := by
  unfold SyncDB.update_task
  dsimp only
  split
  · rfl
  · split <;> split <;> rfl

/-- A `getTaskRow` lookup only reads the tasks table. -/
theorem getTaskRow_congr_tasks {d1 d2 : DB} (h : d1.tasks = d2.tasks)
    (x : String) : SyncDB.getTaskRow d1 x = SyncDB.getTaskRow d2 x := by
  unfold SyncDB.getTaskRow
  rw [h]

/-- Looking up a freshly appended question through an id-preserving patch. -/
theorem find?_fresh_append (l : List Question) (q0 : Question) (qid : String)
    (patch : Question → Question) (hfresh : ∀ q ∈ l, q.id ≠ qid)
    (hq0 : q0.id = qid) (hp : ∀ q, (patch q).id = q.id) :
    ((l ++ [q0]).map patch).find? (fun q => q.id == qid)
      = some (patch q0) := by
  rw [find?_map_invariant patch _ (fun a => by simp [hp]), List.find?_append]
  have h1 : l.find? (fun q => q.id == qid) = none :=
    List.find?_eq_none.mpr (fun x hx => by simp [hfresh x hx])
  rw [h1]
  simp [hq0]

/-- C5: `ask` on an auto_accept task returns synchronously (zero polls) with
the deterministic default answer — the first option when a non-empty option
list is given, else "approved" for plan_review and "yes" otherwise — the
question is persisted already answered with auto_accepted, and the task row
(in particular its status) is untouched, never set to blocked. -/
theorem C5_ask_auto_accept (db : DB) (task_id question question_type : String)
    (options : Option (List String)) (context agent : Option String)
    (question_id : String) (sched : Nat → Option String) (now : Nat) (t : Task)
    (ht : SyncDB.getTaskRow db task_id = some t) (hauto : t.auto_accept = true)
    (hfresh : ∀ q ∈ db.questions, q.id ≠ question_id) :
    ((dashboard_ask_question db task_id question question_type options context
        agent question_id sched now).2
      = { answer := (match options with
            | some (o :: _) => o
            | _ => if question_type == "plan_review" then "approved" else "yes"),
          auto_accepted := true, timed_out := false, polls := 0 })
    ∧ (∃ q, SyncDB.get_question (dashboard_ask_question db task_id question
          question_type options context agent question_id sched now).1
            question_id = some q
        ∧ q.task_id = task_id
        ∧ q.answer = some (dashboard_ask_question db task_id question
            question_type options context agent question_id sched now).2.answer
        ∧ q.auto_accepted = true)
    ∧ SyncDB.getTaskRow (dashboard_ask_question db task_id question
        question_type options context agent question_id sched now).1 task_id
      = some t := by
  have hcond : (match SyncDB.getTaskRow db task_id with
      | some u => u.auto_accept
      | none => false) = true := by rw [ht]; exact hauto
  unfold dashboard_ask_question
  rw [if_pos hcond]
  dsimp only
  refine ⟨rfl, ?_, ?_⟩
  · refine ⟨⟨question_id, task_id, agent, question, question_type,
      SyncDB.storedOptions options, context,
      some (match options with
        | some (o :: _) => o
        | _ => if question_type == "plan_review" then "approved" else "yes"),
      some now, true, now⟩, ?_, rfl, rfl, rfl⟩
    unfold SyncDB.get_question
    rw [questions_answer_question]
    rw [show (SyncDB.create_question db question_id task_id question agent
        question_type options context now).questions
      = db.questions ++ [⟨question_id, task_id, agent, question, question_type,
          SyncDB.storedOptions options, context, none, none, false, now⟩]
      from rfl]
    rw [find?_fresh_append db.questions _ question_id
      (fun q => if q.id == question_id then
        { q with
          answer := some (match options with
            | some (o :: _) => o
            | _ => if question_type == "plan_review" then "approved" else "yes"),
          answered_at := some now, auto_accepted := true }
        else q)
      hfresh rfl
      (fun q => by by_cases hq : (q.id == question_id) = true <;> simp [hq])]
    simp
  · rw [getTaskRow_congr_tasks (tasks_answer_question _ question_id _ true now)
      task_id]
    exact ht

/-- Store used by the C5 witness: an auto_accept task. -/
def dbC5 : DB :=
  { tasks := [{ id := "t1", status := "in_progress", auto_accept := true }] }

theorem C5_ask_auto_accept_witness :
    ((dashboard_ask_question dbC5 "t1" "Proceed?" "confirm" none none none
        "q1" (fun _ => none) 3).2
      = { answer := "yes", auto_accepted := true, timed_out := false,
          polls := 0 })
    ∧ SyncDB.getTaskRow (dashboard_ask_question dbC5 "t1" "Proceed?" "confirm"
        none none none "q1" (fun _ => none) 3).1 "t1"
      = some { id := "t1", status := "in_progress", auto_accept := true } := by
  obtain ⟨h1, _, h3⟩ := C5_ask_auto_accept dbC5 "t1" "Proceed?" "confirm" none
    none none "q1" (fun _ => none) 3
    { id := "t1", status := "in_progress", auto_accept := true }
    (by rfl) rfl (by intro q hq; simp [dbC5] at hq)
  exact ⟨h1, h3⟩

/-- If the store never shows an answer, the poll loop runs its fuel down and
returns the timeout result; the store effect is that of the fuel-0 step. -/
theorem askLoop_never (db : DB) (task_id question_id : String)
    (sched : Nat → Option String) (now : Nat) (hs : ∀ j, sched j = none) :
    ∀ (fuel i : Nat), askLoop db task_id question_id sched now i fuel
      = ((askLoop db task_id question_id sched now 0 0).1,
         { answer := "[TIMEOUT]", auto_accepted := false, timed_out := true,
           polls := i + fuel }) := by
  intro fuel
  induction fuel with
  | zero => intro i; rfl
  | succ f ih =>
    intro i
    have ih1 := ih (i + 1)
    simp only [askLoop] at ih1
    simp only [askLoop, hs]
    rw [ih1]
    have h2 : i + 1 + f = i + (f + 1) := by omega
    rw [h2]

/-- C6: `ask` on a task without auto_accept that is never answered: the task
is set to blocked and polled until the fixed ceiling (QUESTION_TIMEOUT /
QUESTION_POLL_INTERVAL polls), a sentinel "timed out" answer is persisted on
the question, "[TIMEOUT]" is returned, and the task ends in_progress if and
only if it had no other unanswered question (else it stays blocked). -/
theorem C6_ask_timeout (db : DB) (task_id question question_type : String)
    (options : Option (List String)) (context agent : Option String)
    (question_id : String) (sched : Nat → Option String) (now : Nat) (t : Task)
    (ht : SyncDB.getTaskRow db task_id = some t) (hauto : t.auto_accept = false)
    (hfresh : ∀ q ∈ db.questions, q.id ≠ question_id)
    (hnever : ∀ j, sched j = none) :
    ((dashboard_ask_question db task_id question question_type options context
        agent question_id sched now).2
      = { answer := "[TIMEOUT]", auto_accepted := false, timed_out := true,
          polls := QUESTION_TIMEOUT / QUESTION_POLL_INTERVAL })
    ∧ (∃ q, SyncDB.get_question (dashboard_ask_question db task_id question
          question_type options context agent question_id sched now).1
            question_id = some q
        ∧ q.answer = some "[TIMEOUT - no answer received]")
    ∧ ((SyncDB.getTaskRow (dashboard_ask_question db task_id question
          question_type options context agent question_id sched now).1
            task_id).map (fun u => u.status) = some "in_progress"
        ↔ db.questions.filter
            (fun q => q.task_id == task_id && q.answer.isNone) = [])
    ∧ (db.questions.filter (fun q => q.task_id == task_id && q.answer.isNone)
          ≠ []
        → (SyncDB.getTaskRow (dashboard_ask_question db task_id question
            question_type options context agent question_id sched now).1
              task_id).map (fun u => u.status) = some "blocked") := by
  have hteq : t.id = task_id := by simpa using getTaskRow_id ht
  have hcond : (match SyncDB.getTaskRow db task_id with
      | some u => u.auto_accept
      | none => false) = false := by rw [ht]; exact hauto
  unfold dashboard_ask_question
  rw [if_neg (by simp [hcond])]
  dsimp only
  rw [askLoop_never _ task_id question_id sched now hnever
    (QUESTION_TIMEOUT / QUESTION_POLL_INTERVAL) 0]
  simp only [askLoop]
  set dbq := SyncDB.create_question db question_id task_id question agent
    question_type options context now with hdbq
  set dbB := (SyncDB.update_task dbq task_id (some "blocked") none none none
    none now).1 with hdbB
  set db1 := SyncDB.answer_question dbB question_id
    "[TIMEOUT - no answer received]" false now with hdb1
  -- the task row after the blocked update
  have hrowB : SyncDB.getTaskRow dbB task_id
      = some (SyncDB.patchTask (some "blocked") none none none none now t) := by
    rw [hdbB, getTaskRow_update_task dbq task_id (some "blocked") none none
      none none now task_id rfl]
    rw [getTaskRow_congr_tasks (show dbq.tasks = db.tasks from rfl) task_id, ht]
    simp [hteq]
  -- questions visible to the pending check after the sentinel answer
  have hq1 : db1.questions = ((db.questions ++
      [(⟨question_id, task_id, agent, question, question_type,
        SyncDB.storedOptions options,
        context, none, none, false, now⟩ : Question)]).map (fun q =>
          if q.id == question_id then
            { q with answer := some "[TIMEOUT - no answer received]",
                     answered_at := some now, auto_accepted := false }
          else q)) := by
    rw [hdb1, questions_answer_question]
    rw [show dbB.questions = dbq.questions from questions_update_task dbq
      task_id (some "blocked") none none none none now]
    rw [hdbq]
    rfl
  -- the pending filter over db1 equals the pending filter over db
  have hfilter : db1.questions.filter
      (fun q => q.task_id == task_id && q.answer.isNone)
      = db.questions.filter
          (fun q => q.task_id == task_id && q.answer.isNone) := by
    rw [hq1, List.map_append, List.filter_append]
    have hmapid : db.questions.map (fun q =>
        if q.id == question_id then
          { q with answer := some "[TIMEOUT - no answer received]",
                   answered_at := some now, auto_accepted := false }
        else q) = db.questions := by
      rw [List.map_congr_left (g := id) (fun q hq => by simp [hfresh q hq]),
        List.map_id]
    rw [hmapid]
    simp
  have hremlen : (SyncDB.get_questions db1 task_id true).length
      = (db.questions.filter
          (fun q => q.task_id == task_id && q.answer.isNone)).length := by
    show (List.insertionSort questionCreatedLe
      (db1.questions.filter
        (fun q => q.task_id == task_id && (!true || q.answer.isNone)))).length
      = _
    rw [(List.perm_insertionSort questionCreatedLe _).length_eq]
    rw [show db1.questions.filter
        (fun q => q.task_id == task_id && (!true || q.answer.isNone))
      = db1.questions.filter
          (fun q => q.task_id == task_id && q.answer.isNone) from rfl]
    rw [hfilter]
  have hrem : (SyncDB.get_questions db1 task_id true).isEmpty = true
      ↔ db.questions.filter
          (fun q => q.task_id == task_id && q.answer.isNone) = [] := by
    rw [List.isEmpty_iff, ← List.length_eq_zero, hremlen, List.length_eq_zero]
  refine ⟨rfl, ?_, ?_, ?_⟩
  · -- the sentinel answer is persisted on the question in both branches
    have hfind : db1.questions.find? (fun q => q.id == question_id)
        = some ⟨question_id, task_id, agent, question, question_type,
            SyncDB.storedOptions options,
            context, some "[TIMEOUT - no answer received]", some now, false,
            now⟩ := by
      rw [hq1]
      rw [find?_fresh_append db.questions _ question_id
        (fun q => if q.id == question_id then
          { q with answer := some "[TIMEOUT - no answer received]",
                   answered_at := some now, auto_accepted := false }
          else q)
        hfresh rfl
        (fun q => by by_cases hq : (q.id == question_id) = true <;> simp [hq])]
      simp
    refine ⟨⟨question_id, task_id, agent, question, question_type,
      SyncDB.storedOptions options, context,
      some "[TIMEOUT - no answer received]", some now, false, now⟩, ?_, rfl⟩
    unfold SyncDB.get_question
    split
    · rw [questions_update_task]
      exact hfind
    · exact hfind
  · -- restored to in_progress iff no other pending question
    cases hcase : (SyncDB.get_questions db1 task_id true).isEmpty with
    | true =>
      rw [if_pos rfl]
      rw [getTaskRow_update_task db1 task_id (some "in_progress") none none
        none none now task_id rfl]
      rw [getTaskRow_congr_tasks (show db1.tasks = dbB.tasks from
        tasks_answer_question dbB question_id _ false now) task_id, hrowB]
      simp only [Option.map_some']
      constructor
      · intro _
        exact hrem.mp hcase
      · intro _
        simp [SyncDB.patchTask, patchTask_id, hteq]
    | false =>
      rw [if_neg (by simp)]
      rw [getTaskRow_congr_tasks (show db1.tasks = dbB.tasks from
        tasks_answer_question dbB question_id _ false now) task_id, hrowB]
      constructor
      · intro hcontra
        simp [SyncDB.patchTask] at hcontra
      · intro hnil
        rw [← hrem] at hnil
        rw [hcase] at hnil
        cases hnil
  · -- with another pending question the task stays blocked
    intro hne
    have hcase : (SyncDB.get_questions db1 task_id true).isEmpty = false := by
      cases hc : (SyncDB.get_questions db1 task_id true).isEmpty with
      | true => exact absurd (hrem.mp hc) hne
      | false => rfl
    rw [if_neg (by simp [hcase])]
    rw [getTaskRow_congr_tasks (show db1.tasks = dbB.tasks from
      tasks_answer_question dbB question_id _ false now) task_id, hrowB]
    rfl

/-- Store used by the C6 witness: a non-auto task with no other question. -/
def dbC6 : DB := { tasks := [{ id := "t1", status := "in_progress" }] }

theorem C6_ask_timeout_witness :
    ((dashboard_ask_question dbC6 "t1" "Go?" "confirm" none none none "q1"
        (fun _ => none) 3).2
      = { answer := "[TIMEOUT]", auto_accepted := false, timed_out := true,
          polls := QUESTION_TIMEOUT / QUESTION_POLL_INTERVAL })
    ∧ (SyncDB.getTaskRow (dashboard_ask_question dbC6 "t1" "Go?" "confirm"
        none none none "q1" (fun _ => none) 3).1 "t1").map (fun u => u.status)
      = some "in_progress" := by
  obtain ⟨h1, _, h3, _⟩ := C6_ask_timeout dbC6 "t1" "Go?" "confirm" none none
    none "q1" (fun _ => none) 3 { id := "t1", status := "in_progress" }
    (by rfl) rfl (by intro q hq; simp [dbC6] at hq) (fun _ => rfl)
  exact ⟨h1, h3.mpr (by rfl)⟩

/-! ### ServiceManager (service_manager.py) -/

/-- service_manager.MAX_LOG_LINES: capacity of the per-service ring buffer. -/
def MAX_LOG_LINES : Nat := 500

/-- Append to a fixed-capacity ring buffer (`deque(maxlen=MAX_LOG_LINES)`):
oldest lines evicted. -/
def ringAppend (buf : List String) (line : String) : List String :=
  let l := buf ++ [line]
  l.drop (l.length - MAX_LOG_LINES)

/-- Runtime state of one managed service (`ServiceInfo`), the subprocess
handle reduced to its pid. -/
structure ServiceInfo where
  id : String
  name : String
  command : String
  cwd : String
  port : Option Int := none
  process : Option Int := none
  status : String := "stopped"
  pid : Option Int := none
  started_at : Option Nat := none
  log_buffer : List String := []
deriving DecidableEq, Repr

/-- Model of `ServiceManager`: its `_services` dict in insertion order. -/
structure ServiceManager where
  services : List (String × ServiceInfo) := []
deriving DecidableEq, Repr

namespace ServiceManager

/-- Model of `self._services.get(service_id)`. -/
def getService (sm : ServiceManager) (service_id : String) :
    Option ServiceInfo :=
  (sm.services.find? (fun p => p.1 == service_id)).map (fun p => p.2)

/-- Replace the state of one service in the dict. -/
def setService (sm : ServiceManager) (service_id : String)
    (svc : ServiceInfo) : ServiceManager :=
  { services := sm.services.map (fun p =>
      if p.1 == service_id then (p.1, svc) else p) }

/-- Model of `ServiceManager.start`: success no-op when already starting/running;
else mark starting, clear the buffer, fail if the working directory is
missing, else launch (`launch` = pid on success, none when
`create_subprocess_shell` raises) and mark running. The last component
counts OS processes created by the call. -/
def start (sm : ServiceManager) (service_id : String) (cwdExists : Bool)
    (launch : Option Int) (now : Nat) : Bool × ServiceManager × Nat :=
  match getService sm service_id with
  | none => (false, sm, 0)
  | some svc =>
    if svc.status == "starting" || svc.status == "running" then
      (true, sm, 0)
    else
      let svc1 := { svc with status := "starting", log_buffer := [] }
      if !cwdExists then
        (false, setService sm service_id
          { svc1 with
            status := "failed"
            log_buffer := ringAppend svc1.log_buffer
              "[service-manager] cwd does not exist" }, 0)
      else
        match launch with
        | some p =>
          (true, setService sm service_id
            { svc1 with
              process := some p
              pid := some p
              started_at := some now
              status := "running" }, 1)
        | none =>
          (false, setService sm service_id
            { svc1 with
              status := "failed"
              log_buffer := ringAppend svc1.log_buffer
                "[service-manager] failed to start" }, 0)

/-- Model of `ServiceManager.stop`: false for unknown or never-started services
(no process handle); success no-op when already stopped; else terminate and
reset to stopped. -/
def stop (sm : ServiceManager) (service_id : String) : Bool × ServiceManager :=
  match getService sm service_id with
  | none => (false, sm)
  | some svc =>
    if svc.process.isNone then (false, sm)
    else if svc.status == "stopped" then (true, sm)
    else
      (true, setService sm service_id
        { svc with
          status := "stopped"
          process := none
          pid := none
          started_at := none })

end ServiceManager

/-- Looking up a service after `setService` on the same id. -/
theorem getService_setService (sm : ServiceManager) (service_id : String)
    (svc : ServiceInfo) :
    ServiceManager.getService (ServiceManager.setService sm service_id svc)
        service_id
      = (ServiceManager.getService sm service_id).map (fun _ => svc) := by
  unfold ServiceManager.getService ServiceManager.setService
  rw [show (sm.services.map (fun p =>
      if p.1 == service_id then (p.1, svc) else p)).find?
        (fun p => p.1 == service_id)
    = (sm.services.find? (fun p => p.1 == service_id)).map (fun p =>
        if p.1 == service_id then (p.1, svc) else p) from
    find?_map_invariant _ _ (fun a => by
      by_cases ha : (a.1 == service_id) = true <;> simp [ha]) sm.services]
  cases hf : sm.services.find? (fun p => p.1 == service_id) with
  | none => rfl
  | some p =>
    have hp : p.1 = service_id := by
      simpa using List.find?_some
        (p := fun q : String × ServiceInfo => q.1 == service_id) hf
    simp [hp]

/-- C9: `start` is idempotent — two consecutive `start` calls on a
configured, not-yet-started service launch exactly one OS process, both
returning success (the second is a no-op) — and `stop` on a never-started
service returns false without changing any state. -/
theorem C9_start_idempotent_stop_fresh (sm : ServiceManager)
    (service_id : String) (svc : ServiceInfo) (p : Int) (now : Nat)
    (cwd2 : Bool) (launch2 : Option Int) (now2 : Nat)
    (hsvc : ServiceManager.getService sm service_id = some svc)
    (hstatus : svc.status = "stopped") (hproc : svc.process = none) :
    (ServiceManager.start sm service_id true (some p) now).1 = true
    ∧ (ServiceManager.start sm service_id true (some p) now).2.2 = 1
    ∧ (ServiceManager.start
        (ServiceManager.start sm service_id true (some p) now).2.1 service_id
        cwd2 launch2 now2).1 = true
    ∧ (ServiceManager.start
        (ServiceManager.start sm service_id true (some p) now).2.1 service_id
        cwd2 launch2 now2).2.2 = 0
    ∧ ServiceManager.stop sm service_id = (false, sm) := by
  have hcond : (svc.status == "starting" || svc.status == "running")
      = false := by rw [hstatus]; rfl
  have h1 : ServiceManager.start sm service_id true (some p) now
      = (true, ServiceManager.setService sm service_id
          { svc with
            status := "running"
            log_buffer := []
            process := some p
            pid := some p
            started_at := some now }, 1) := by
    unfold ServiceManager.start
    rw [hsvc]
    simp only [hcond, Bool.false_eq_true, if_false, Bool.not_true]
  have h2 : ServiceManager.getService
      (ServiceManager.start sm service_id true (some p) now).2.1 service_id
      = some { svc with
          status := "running"
          log_buffer := []
          process := some p
          pid := some p
          started_at := some now } := by
    rw [h1]
    dsimp only
    rw [getService_setService, hsvc]
    rfl
  have h3 : ∀ (sm2 : ServiceManager) (svc2 : ServiceInfo),
      ServiceManager.getService sm2 service_id = some svc2 →
      svc2.status = "running" →
      ServiceManager.start sm2 service_id cwd2 launch2 now2
        = (true, sm2, 0) := by
    intro sm2 svc2 hsm2 hst
    unfold ServiceManager.start
    simp only [hsm2]
    rw [if_pos (by rw [hst]; rfl)]
  refine ⟨by rw [h1], by rw [h1], by rw [h3 _ _ h2 rfl], by rw [h3 _ _ h2 rfl],
    ?_⟩
  unfold ServiceManager.stop
  simp only [hsvc]
  rw [hproc]
  rfl

/-- Service manager used by the C9 witness: one configured service. -/
def smC9 : ServiceManager :=
  { services := [("web",
      { id := "web", name := "Web", command := "npm run dev", cwd := "web" })] }

theorem C9_start_idempotent_stop_fresh_witness :
    (ServiceManager.start smC9 "web" true (some 31) 4).1 = true
    ∧ (ServiceManager.start smC9 "web" true (some 31) 4).2.2 = 1
    ∧ (ServiceManager.start (ServiceManager.start smC9 "web" true (some 31)
        4).2.1 "web" true (some 32) 9).1 = true
    ∧ (ServiceManager.start (ServiceManager.start smC9 "web" true (some 31)
        4).2.1 "web" true (some 32) 9).2.2 = 0
    ∧ ServiceManager.stop smC9 "web" = (false, smC9) :=
  C9_start_idempotent_stop_fresh smC9 "web"
    { id := "web", name := "Web", command := "npm run dev", cwd := "web" }
    31 4 true (some 32) 9 (by rfl) rfl rfl

/-! ### The _ws_poll_loop tick (main.py) -/

/-- Python `round` of a millisecond duration to whole seconds (the tick
model measures wall-clock time in milliseconds; no claim is evaluated at an
exact half-second tie, where Python rounds to even). -/
def pythonRoundSec (ms : Nat) : Nat := (ms + 500) / 1000

/-- The dict produced by `ServiceManager._serialize`: note the `uptime`
field is derived from the wall clock at serialization time. -/
structure SerializedService where
  id : String
  name : String
  command : String
  cwd : String
  port : Option Int
  status : String
  pid : Option Int
  uptime : Option Nat
deriving DecidableEq, Repr

namespace ServiceManager

/-- Model of `ServiceManager._serialize` (a falsy `started_at` of 0 yields None, as
in Python). -/
def serialize (svc : ServiceInfo) (nowMs : Nat) : SerializedService :=
  { id := svc.id, name := svc.name, command := svc.command, cwd := svc.cwd,
    port := svc.port, status := svc.status, pid := svc.pid,
    uptime :=
      match svc.started_at with
      | some s => if s == 0 then none else some (pythonRoundSec (nowMs - s))
      | none => none }

/-- Model of `ServiceManager.list_services`. -/
def list_services (sm : ServiceManager) (nowMs : Nat) :
    List SerializedService :=
  sm.services.map (fun p => serialize p.2 nowMs)

/-- Model of `ServiceManager.has_services`. -/
def has_services (sm : ServiceManager) : Bool :=
  !sm.services.isEmpty

end ServiceManager

/-- The mutable cursors of `_ws_poll_loop`; the initial empty-string
snapshots are `none`. -/
structure TickCursors where
  prev_snapshot : Option (List TaskView × Stats) := none
  last_activity_id : Nat := 0
  last_question_snapshot : Option (List Question) := none
  prev_service_snapshot : Option (List SerializedService) := none
deriving DecidableEq, Repr

/-- Cursor state before the first tick. -/
def initialCursors : TickCursors := {}

/-- What one tick broadcast: whether each snapshot-diff message fired, and
the activity entries pushed. -/
structure TickMessages where
  tasks_updated : Bool
  stats : Bool
  activity : List ActivityEntry
  questions : Bool
  processes : Bool
  services : Bool
deriving DecidableEq, Repr

/-- One iteration of `_ws_poll_loop` (main.py): snapshot-diff for
tasks+stats, id-cursor for activity, snapshot-diff for pending questions,
an unconditional process broadcast, and snapshot-diff for the service list
serialized at the current wall clock `nowMs`. -/
def ws_poll_tick (db : DB) (sm : ServiceManager) (hasQueue : Bool)
    (cur : TickCursors) (nowMs : Nat) : TickCursors × TickMessages :=
  let tasks := SyncDB.get_root_tasks db
  let stats := SyncDB.get_stats db
  let snapshot := (tasks, stats)
  let pair1 : Option (List TaskView × Stats) × Bool :=
    if cur.prev_snapshot ≠ some snapshot then (some snapshot, true)
    else (cur.prev_snapshot, false)
  let new_activity := SyncDB.get_activity_since_id db cur.last_activity_id
  let last1 :=
    if new_activity.isEmpty then cur.last_activity_id
    else (new_activity.map (fun a => a.id)).foldl Nat.max 0
  let all_pending := SyncDB.get_all_pending_questions db
  let pair2 : Option (List Question) × Bool :=
    if cur.last_question_snapshot ≠ some all_pending then (some all_pending, true)
    else (cur.last_question_snapshot, false)
  let pair3 : Option (List SerializedService) × Bool :=
    if sm.has_services then
      let service_list := ServiceManager.list_services sm nowMs
      if cur.prev_service_snapshot ≠ some service_list then
        (some service_list, true)
      else (cur.prev_service_snapshot, false)
    else (cur.prev_service_snapshot, false)
  ({ prev_snapshot := pair1.1
     last_activity_id := last1
     last_question_snapshot := pair2.1
     prev_service_snapshot := pair3.1 },
   { tasks_updated := pair1.2
     stats := pair1.2
     activity := new_activity
     questions := pair2.2
     processes := hasQueue
     services := pair3.2 })

theorem foldl_max_le_init (l : List Nat) : ∀ b : Nat, b ≤ l.foldl Nat.max b := by
  induction l with
  | nil => intro b; exact Nat.le_refl b
  | cons c l ih =>
    intro b
    exact Nat.le_trans (Nat.le_max_left b c) (ih (Nat.max b c))

theorem le_foldl_max (l : List Nat) : ∀ b a, a ∈ l → a ≤ l.foldl Nat.max b := by
  induction l with
  | nil => intro b a ha; exact absurd ha (by simp)
  | cons c l ih =>
    intro b a ha
    cases List.mem_cons.mp ha with
    | inl h =>
      subst h
      exact Nat.le_trans (Nat.le_max_right b a) (foldl_max_le_init l _)
    | inr h => exact ih (Nat.max b c) a h

/-- The activity cursor query is empty exactly when no stored entry lies
past the cursor. -/
theorem get_activity_since_id_eq_nil (db : DB) (N : Nat) :
    SyncDB.get_activity_since_id db N = [] ↔
      ∀ e ∈ db.activity, ¬ N < e.id := by
  unfold SyncDB.get_activity_since_id
  rw [← List.length_eq_zero,
    (List.perm_insertionSort activityIdLe _).length_eq, List.length_eq_zero,
    List.filter_eq_nil_iff]
  constructor
  · intro h e he hlt
    exact h e he (by simpa using hlt)
  · intro h e he hlt
    exact h e he (by simpa using hlt)

theorem tick_cursor_prev (db : DB) (sm : ServiceManager) (hasQueue : Bool)
    (cur : TickCursors) (t1 : Nat) :
    (ws_poll_tick db sm hasQueue cur t1).1.prev_snapshot
      = some (SyncDB.get_root_tasks db, SyncDB.get_stats db) := by
  unfold ws_poll_tick
  dsimp only
  split
  · rfl
  · next h => exact not_not.mp h

theorem tick_cursor_questions (db : DB) (sm : ServiceManager)
    (hasQueue : Bool) (cur : TickCursors) (t1 : Nat) :
    (ws_poll_tick db sm hasQueue cur t1).1.last_question_snapshot
      = some (SyncDB.get_all_pending_questions db) := by
  unfold ws_poll_tick
  dsimp only
  split
  · rfl
  · next h => exact not_not.mp h

theorem tick_cursor_services (db : DB) (sm : ServiceManager)
    (hasQueue : Bool) (cur : TickCursors) (t1 : Nat)
    (hhs : sm.has_services = true) :
    (ws_poll_tick db sm hasQueue cur t1).1.prev_service_snapshot
      = some (ServiceManager.list_services sm t1) := by
  unfold ws_poll_tick
  dsimp only
  rw [if_pos hhs]
  split
  · rfl
  · next h => exact not_not.mp h

theorem tick_cursor_activity (db : DB) (sm : ServiceManager)
    (hasQueue : Bool) (cur : TickCursors) (t1 : Nat) :
    SyncDB.get_activity_since_id db
      (ws_poll_tick db sm hasQueue cur t1).1.last_activity_id = [] := by
  unfold ws_poll_tick
  dsimp only
  cases hne : (SyncDB.get_activity_since_id db cur.last_activity_id).isEmpty with
  | true =>
    rw [if_pos rfl]
    have hnil : SyncDB.get_activity_since_id db cur.last_activity_id = [] :=
      List.isEmpty_iff.mp hne
    exact hnil
  | false =>
    rw [if_neg (by simp)]
    rw [get_activity_since_id_eq_nil]
    intro e he hlt
    have hmem : ∀ x, x ∈ SyncDB.get_activity_since_id db cur.last_activity_id
        ↔ x ∈ db.activity ∧ cur.last_activity_id < x.id := by
      intro x
      unfold SyncDB.get_activity_since_id
      rw [List.mem_insertionSort, List.mem_filter]
      simp
    by_cases hcur : cur.last_activity_id < e.id
    · have he' : e ∈ SyncDB.get_activity_since_id db cur.last_activity_id :=
        (hmem e).mpr ⟨he, hcur⟩
      have := le_foldl_max
        ((SyncDB.get_activity_since_id db cur.last_activity_id).map
          (fun a => a.id)) 0 e.id (List.mem_map_of_mem (fun a => a.id) he')
      omega
    · obtain ⟨x, hx⟩ := List.exists_mem_of_ne_nil
        (SyncDB.get_activity_since_id db cur.last_activity_id)
        (fun hc => by rw [hc] at hne; simp at hne)
      have hx' := (hmem x).mp hx
      have hxle := le_foldl_max
        ((SyncDB.get_activity_since_id db cur.last_activity_id).map
          (fun a => a.id)) 0 x.id (List.mem_map_of_mem (fun a => a.id) hx)
      omega

/-- A tick whose cursors already reflect the store broadcasts nothing
(except the unconditional process message). -/
theorem tick_idle_core (db : DB) (sm : ServiceManager) (hasQueue : Bool)
    (c : TickCursors) (t2 : Nat)
    (hprev : c.prev_snapshot
      = some (SyncDB.get_root_tasks db, SyncDB.get_stats db))
    (hact : SyncDB.get_activity_since_id db c.last_activity_id = [])
    (hq : c.last_question_snapshot
      = some (SyncDB.get_all_pending_questions db)) :
    (ws_poll_tick db sm hasQueue c t2).2.tasks_updated = false
    ∧ (ws_poll_tick db sm hasQueue c t2).2.stats = false
    ∧ (ws_poll_tick db sm hasQueue c t2).2.activity = []
    ∧ (ws_poll_tick db sm hasQueue c t2).2.questions = false := by
  unfold ws_poll_tick
  dsimp only
  rw [if_neg (by rw [hprev]; exact not_not_intro rfl),
    if_neg (by rw [hq]; exact not_not_intro rfl)]
  exact ⟨rfl, rfl, hact, rfl⟩

theorem tick_idle_services (db : DB) (sm : ServiceManager) (hasQueue : Bool)
    (c : TickCursors) (t2 : Nat)
    (hserv : sm.has_services = true →
      c.prev_service_snapshot = some (ServiceManager.list_services sm t2)) :
    (ws_poll_tick db sm hasQueue c t2).2.services = false := by
  unfold ws_poll_tick
  dsimp only
  cases hhs : sm.has_services with
  | true =>
    rw [if_pos rfl, if_neg (by rw [hserv hhs]; exact not_not_intro rfl)]
  | false =>
    rw [if_neg (by simp)]

/-- Empty store used by the C7 counterexample and witness. -/
def dbEmpty : DB := {}

/-- A service manager with one running service, started at wall-clock
1000 ms. -/
def smRun : ServiceManager :=
  { services := [("web",
      (⟨"web", "Web", "npm run dev", "web", none, some 42, "running",
        some 42, some 1000, []⟩ : ServiceInfo))] }

/-- C7 counterexample: with a service running, two consecutive ticks with no
store mutation in between still broadcast a services message, because the
serialized service list embeds the wall-clock-derived `uptime` (here 1 s at
the first tick, 2 s at the second). All store-derived messages are silent,
so the claim fails exactly in its "including when a service is currently
running" part. -/
theorem C7_counterexample :
    (ws_poll_tick dbEmpty smRun false
        ((ws_poll_tick dbEmpty smRun false initialCursors 2200).1) 2700).2
      = { tasks_updated := false, stats := false, activity := [],
          questions := false, processes := false, services := true } := by
  rfl

/-- C7 (amended): two consecutive ticks with no store mutation between them
broadcast zero task, stats and question messages and the activity cursor
yields zero new entries, in every state; the services message is also
silent whenever the serialized service list (which embeds a wall-clock
uptime) is unchanged between the two ticks — in particular whenever no
service is running — but a running service may produce a services message
as its uptime advances. -/
theorem C7_tick_no_mutation (db : DB) (sm : ServiceManager) (hasQueue : Bool)
    (cur : TickCursors) (t1 t2 : Nat) :
    (ws_poll_tick db sm hasQueue
        (ws_poll_tick db sm hasQueue cur t1).1 t2).2.tasks_updated = false
    ∧ (ws_poll_tick db sm hasQueue
        (ws_poll_tick db sm hasQueue cur t1).1 t2).2.stats = false
    ∧ (ws_poll_tick db sm hasQueue
        (ws_poll_tick db sm hasQueue cur t1).1 t2).2.activity = []
    ∧ (ws_poll_tick db sm hasQueue
        (ws_poll_tick db sm hasQueue cur t1).1 t2).2.questions = false
    ∧ (ServiceManager.list_services sm t2 = ServiceManager.list_services sm t1
        → (ws_poll_tick db sm hasQueue
            (ws_poll_tick db sm hasQueue cur t1).1 t2).2.services = false) := by
  obtain ⟨h1, h2, h3, h4⟩ := tick_idle_core db sm hasQueue
    ((ws_poll_tick db sm hasQueue cur t1).1) t2
    (tick_cursor_prev db sm hasQueue cur t1)
    (tick_cursor_activity db sm hasQueue cur t1)
    (tick_cursor_questions db sm hasQueue cur t1)
  refine ⟨h1, h2, h3, h4, fun hlist => ?_⟩
  exact tick_idle_services db sm hasQueue _ t2
    (fun hhs => by rw [tick_cursor_services db sm hasQueue cur t1 hhs, hlist])

/-- A service manager with no configured services. -/
def smNone : ServiceManager := {}

theorem C7_tick_no_mutation_witness :
    (ws_poll_tick dbEmpty smNone false
        ((ws_poll_tick dbEmpty smNone false initialCursors 5).1) 9).2.tasks_updated
      = false
    ∧ (ws_poll_tick dbEmpty smNone false
        ((ws_poll_tick dbEmpty smNone false initialCursors 5).1) 9).2.activity
      = []
    ∧ (ws_poll_tick dbEmpty smNone false
        ((ws_poll_tick dbEmpty smNone false initialCursors 5).1) 9).2.questions
      = false
    ∧ (ws_poll_tick dbEmpty smNone false
        ((ws_poll_tick dbEmpty smNone false initialCursors 5).1) 9).2.services
      = false := by
  obtain ⟨h1, _, h3, h4, h5⟩ := C7_tick_no_mutation dbEmpty smNone false
    initialCursors 5 9
  exact ⟨h1, h3, h4, h5 rfl⟩

end Dashboard
